import Mathlib

/-!
Shallow embedding of the falese/daemon component-relay system.

The system has three processes:
* the Component Registry (simple-registry.js): mints components, stores them
  in a JS `Map` keyed by id, and publishes them on the in-process PubSub
  topic COMPONENT_UPDATE;
* the Component Daemon (simple-daemon.js): a WebSocket client of the
  Registry that forwards every received component into its own PubSub under
  the topic RENDERER_UPDATE and stores it in its own `Map`;
* the Renderer (frontend/src/App.js): a GraphQL-over-WebSocket client of
  the Daemon with a reconnection counter.

Effects are made explicit: the uuid generator and the clock become
parameters, WebSocket handlers become functions from state and incoming
message to new state plus the list of wire messages actually transmitted,
and `setTimeout`-scheduled reconnection attempts become an `Option Nat`
carrying the scheduled delay in milliseconds.

The schema-less `data` payload is carried as an opaque serialized document
(a `String`): no part of the relay core ever inspects it, it is only
copied.
-/

/-- A component record as minted by `ComponentRegistry.renderComponent`:
`\x7b id, type, data, createdAt \x7d`.  The REST ingress destructures
`req.body` without checking presence, so `type` and `data` may be absent
(`undefined` in JS, `none` here).  `data` is an opaque serialized
document. -/
structure Component where
  id : String
  type : Option String
  data : Option String
  createdAt : String
  deriving DecidableEq, Repr

/-- Placeholder component used only as the default of `List.getD`. -/
def defaultComponent : Component :=
  { id := "", type := none, data := none, createdAt := "" }

instance : Inhabited Component := ⟨defaultComponent⟩

/-! ## The PubSub broker (graphql-subscriptions)

Both Registry and Daemon use `new PubSub()` from graphql-subscriptions as
their in-process broker.  `publish(trigger, payload)` emits the payload to
every async iterator currently registered on that trigger; each iterator
buffers undelivered payloads in an unbounded FIFO push queue.
`asyncIterableIterator(trigger)` registers a fresh iterator with an empty
queue.  (The published payload wraps the component under its subscription
field name, e.g. `\x7b componentUpdate: component \x7d`; the wrapper is
unwrapped again by GraphQL execution, so queues here hold the component
itself.) -/

/-- One registered async iterator: an identifier, the trigger (topic) it
listens on, and its FIFO queue of undelivered components. -/
structure Subscriber where
  sid : Nat
  topic : String
  queue : List Component
  deriving DecidableEq, Repr

/-- Placeholder subscriber used only as the default of `List.getD`. -/
def defaultSubscriber : Subscriber :=
  { sid := 0, topic := "", queue := [] }

/-- The in-process broker state. -/
structure PubSub where
  subscribers : List Subscriber
  nextSid : Nat
  deriving DecidableEq, Repr

/-- `pubsub.publish(topic, payload)`: append the component to the queue of
every subscriber registered on `topic`; nothing is ever removed, no bound
is checked, and no error is returned. -/
def PubSub.publish (ps : PubSub) (topic : String) (c : Component) : PubSub :=
  { ps with
    subscribers := ps.subscribers.map fun s =>
      if s.topic = topic then { s with queue := s.queue ++ [c] } else s }

/-- `pubsub.asyncIterableIterator(topic)`: register a fresh subscriber with
an empty queue; returns the new state and the new subscriber id. -/
def PubSub.asyncIterableIterator (ps : PubSub) (topic : String) :
    PubSub × Nat :=
  ({ subscribers :=
       ps.subscribers ++ [{ sid := ps.nextSid, topic := topic, queue := [] }],
     nextSid := ps.nextSid + 1 },
   ps.nextSid)

/-- Run a sequence of `publish` calls (topic, component) left to right. -/
def PubSub.publishAll (ps : PubSub) (pubs : List (String × Component)) :
    PubSub :=
  pubs.foldl (fun acc p => acc.publish p.1 p.2) ps

/-! ## JS `Map` semantics

Both registries keep `this.components = new Map()` and only ever call
`components.set(component.id, component)` and
`Array.from(components.values())`.  A JS `Map` iterates in insertion
order; `set` on an existing key replaces the value but keeps the entry at
its original position; nothing is ever deleted. -/

/-- Does the map already hold `k`? (`map.has(k)`). -/
def jsMapContains (m : List (String × Component)) (k : String) : Bool :=
  m.any fun p => p.1 = k

/-- `map.set(k, v)`: replace in place when the key exists, else append. -/
def jsMapSet (m : List (String × Component)) (k : String) (v : Component) :
    List (String × Component) :=
  if jsMapContains m k then
    m.map fun p => if p.1 = k then (k, v) else p
  else
    m ++ [(k, v)]

/-- `map.get(k)`: the first (and, on reachable states, only) entry at `k`. -/
def jsMapGet (m : List (String × Component)) (k : String) :
    Option Component :=
  (m.find? fun p => p.1 = k).map Prod.snd

/-! ## The Component Registry (simple-registry.js) -/

/-- Registry state: the component history `Map` and the broker. -/
structure ComponentRegistry where
  components : List (String × Component)
  pubsub : PubSub
  deriving DecidableEq, Repr

/-- A freshly started registry (`new ComponentRegistry()`). -/
def emptyRegistry : ComponentRegistry :=
  { components := [], pubsub := { subscribers := [], nextSid := 0 } }

/-- `ComponentRegistry.renderComponent(\x7btype, data\x7d)`: mint a component
with `id = uuidv4()` and `createdAt = new Date().toISOString()` (the uuid
generator and the clock are passed in as `uuid` and `now`), store it in the
`Map` keyed by its id, publish it on COMPONENT_UPDATE, and return it. -/
def ComponentRegistry.renderComponent (r : ComponentRegistry)
    (type : Option String) (data : Option String) (uuid now : String) :
    ComponentRegistry × Component :=
  let component : Component :=
    { id := uuid, type := type, data := data, createdAt := now }
  ({ components := jsMapSet r.components component.id component,
     pubsub := r.pubsub.publish "COMPONENT_UPDATE" component },
   component)

/-- `ComponentRegistry.getComponents()`:
`Array.from(this.components.values())` in insertion order. -/
def ComponentRegistry.getComponents (r : ComponentRegistry) :
    List Component :=
  r.components.map Prod.snd

/-- The JSON body of the REST response of POST /render. -/
structure RenderResponse where
  success : Bool
  component : Component
  deriving DecidableEq, Repr

/-- The POST /render handler: destructure `\x7b type, data \x7d = req.body`
(with no validation of any kind), call `renderComponent`, and answer
`res.json(\x7b success: true, component \x7d)`. -/
def postRender (r : ComponentRegistry) (type : Option String)
    (data : Option String) (uuid now : String) :
    ComponentRegistry × RenderResponse :=
  let (r2, component) := r.renderComponent type data uuid now
  (r2, { success := true, component := component })

/-- The component minted by the debug POST /test-subscription handler:
`id` equal to `"test-" + Date.now()`, a fixed NOTIFICATION type and message, and
`createdAt: new Date().toISOString()`.  `nowMs` is the millisecond clock
read by `Date.now()`. -/
def testSubscriptionComponent (nowMs : Nat) (nowIso : String) : Component :=
  { id := "test-" ++ toString nowMs,
    type := some "NOTIFICATION",
    data := some "\x7b \"message\": \"Test message from debug endpoint\" \x7d",
    createdAt := nowIso }

/-- The POST /test-subscription handler: publish the test component on
COMPONENT_UPDATE directly, bypassing `renderComponent` and the history. -/
def postTestSubscription (r : ComponentRegistry) (nowMs : Nat)
    (nowIso : String) : ComponentRegistry :=
  { r with
    pubsub :=
      r.pubsub.publish "COMPONENT_UPDATE"
        (testSubscriptionComponent nowMs nowIso) }

/-! ## Wire messages -/

/-- Messages a client transmits to its server over the graphql-ws
transport. -/
inductive WireMsg where
  | connectionInit : WireMsg
  | start (id : String) (query : String) : WireMsg
  | stop (id : String) : WireMsg
  deriving DecidableEq, Repr

/-- The subscription query the Daemon sends to the Registry. -/
def daemonSubscriptionQuery : String :=
  "subscription \x7b componentUpdate \x7b id type data createdAt \x7d \x7d"

/-- The subscription query the Renderer sends to the Daemon. -/
def rendererSubscriptionQuery : String :=
  "subscription \x7b rendererUpdate \x7b id type data createdAt \x7d \x7d"

/-! ## The Component Daemon (simple-daemon.js) -/

/-- Daemon state: its own component `Map` and its own broker. -/
structure ComponentDaemon where
  components : List (String × Component)
  pubsub : PubSub
  deriving DecidableEq, Repr

/-- A freshly started daemon (`new ComponentDaemon()`). -/
def emptyDaemon : ComponentDaemon :=
  { components := [], pubsub := { subscribers := [], nextSid := 0 } }

/-- `ComponentDaemon.handleComponentFromRegistry(component)`: store the
component in the daemon's `Map` keyed by its id and publish it, unchanged,
on RENDERER_UPDATE. -/
def ComponentDaemon.handleComponentFromRegistry (d : ComponentDaemon)
    (c : Component) : ComponentDaemon :=
  { components := jsMapSet d.components c.id c,
    pubsub := d.pubsub.publish "RENDERER_UPDATE" c }

/-- `ComponentDaemon.getComponents()`. -/
def ComponentDaemon.getComponents (d : ComponentDaemon) : List Component :=
  d.components.map Prod.snd

/-- Feed a sequence of received components through
`handleComponentFromRegistry`. -/
def ComponentDaemon.handleAll (d : ComponentDaemon)
    (comps : List Component) : ComponentDaemon :=
  comps.foldl ComponentDaemon.handleComponentFromRegistry d

/-- A message arriving on the Daemon's WebSocket to the Registry, as
dispatched on `message.type` by the `onmessage` handler.  For a `data`
message, `hasErrors` is whether `message.payload?.errors` is present and
`componentUpdate` is `message.payload?.data?.componentUpdate`. -/
inductive RegistryMsg where
  | connectionAck : RegistryMsg
  | dataMsg (hasErrors : Bool) (componentUpdate : Option Component) :
      RegistryMsg
  | errorMsg : RegistryMsg
  | other : RegistryMsg
  deriving DecidableEq, Repr

/-- The Daemon's `registryWs.onopen` handler: send `connection_init`. -/
def ComponentDaemon.onRegistryOpen : List WireMsg :=
  [WireMsg.connectionInit]

/-- The Daemon's `registryWs.onmessage` handler.  On `connection_ack` it
sends the `start` message for its single subscription `registry-sub`; on a
`data` message it logs errors when present and otherwise forwards the
received component through `handleComponentFromRegistry`; `error` and
unknown messages are only logged.  Returns the new daemon state and the
wire messages transmitted to the Registry. -/
def ComponentDaemon.onRegistryMessage (d : ComponentDaemon)
    (m : RegistryMsg) : ComponentDaemon × List WireMsg :=
  match m with
  | .connectionAck =>
      (d, [WireMsg.start "registry-sub" daemonSubscriptionQuery])
  | .dataMsg hasErrors componentUpdate =>
      if hasErrors then (d, [])
      else
        match componentUpdate with
        | some c => (d.handleComponentFromRegistry c, [])
        | none => (d, [])
  | .errorMsg => (d, [])
  | .other => (d, [])

/-- The Daemon's `registryWs.onclose` handler:
`setTimeout(() => this.connectToRegistry(), 2000)` — unconditionally
schedule a reconnection attempt after a fixed 2000 ms; the daemon keeps no
attempt counter and never gives up.  Returns the (unchanged) daemon state
and the scheduled delay. -/
def ComponentDaemon.onRegistryClose (d : ComponentDaemon) :
    ComponentDaemon × Option Nat :=
  (d, some 2000)

/-- The delays scheduled by `n` consecutive transport closes (the registry
staying unreachable: every failed attempt fires `onclose` again). -/
def ComponentDaemon.scheduleAfterCloses (d : ComponentDaemon) :
    Nat → List (Option Nat)
  | 0 => []
  | n + 1 =>
      let p := d.onRegistryClose
      p.2 :: p.1.scheduleAfterCloses n

/-! ## The Renderer client (frontend/src/App.js, GraphQLWebSocketClient) -/

/-- The readyState of the underlying browser WebSocket. -/
inductive ReadyState where
  | connecting : ReadyState
  | opened : ReadyState
  | closing : ReadyState
  | closed : ReadyState
  deriving DecidableEq, Repr

/-- A message arriving on the Renderer's WebSocket to the Daemon, as
dispatched on `message.type` by `handleMessage`.  For a `data` message,
`id` is `message.id` and `rendererUpdate` is
`message.payload?.data?.rendererUpdate`. -/
inductive ServerMsg where
  | connectionAck : ServerMsg
  | dataMsg (id : String) (rendererUpdate : Option Component) : ServerMsg
  | errorMsg : ServerMsg
  | complete : ServerMsg
  | unknown : ServerMsg
  deriving DecidableEq, Repr

/-- `GraphQLWebSocketClient` state: `this.ws` (none before the first
`connect()`), `this.connected`, the reconnection counters and the
`subscriptions` map (here the list of registered subscription ids; the
callbacks themselves carry no state). -/
structure GraphQLWebSocketClient where
  wsState : Option ReadyState
  connected : Bool
  reconnectAttempts : Nat
  maxReconnectAttempts : Nat
  subscriptions : List String
  deriving DecidableEq, Repr

/-- The client as built by the constructor: no socket yet, not connected,
zero attempts used, `maxReconnectAttempts = 5`, no subscriptions. -/
def newGraphQLWebSocketClient : GraphQLWebSocketClient :=
  { wsState := none, connected := false, reconnectAttempts := 0,
    maxReconnectAttempts := 5, subscriptions := [] }

/-- `send(message)`: transmit only when `this.ws` exists and
`this.ws.readyState === WebSocket.OPEN`; otherwise do nothing — no error,
no queueing.  Returns the list of messages actually put on the wire. -/
def GraphQLWebSocketClient.send (c : GraphQLWebSocketClient)
    (m : WireMsg) : List WireMsg :=
  if c.wsState = some ReadyState.opened then [m] else []

/-- `startSubscription()`: send the `start` message for the single
subscription id `renderer-subscription`. -/
def GraphQLWebSocketClient.startSubscription
    (c : GraphQLWebSocketClient) : List WireMsg :=
  c.send (WireMsg.start "renderer-subscription" rendererSubscriptionQuery)

/-- The `ws.onopen` handler: the browser has moved the socket to OPEN;
set `connected = true`, reset `reconnectAttempts` to 0 and send
`connection_init`.  Returns the new state and the transmitted messages. -/
def GraphQLWebSocketClient.onOpen (c : GraphQLWebSocketClient) :
    GraphQLWebSocketClient × List WireMsg :=
  let c2 := { c with wsState := some ReadyState.opened, connected := true,
                     reconnectAttempts := 0 }
  (c2, c2.send WireMsg.connectionInit)

/-- `handleMessage(message)`: on `connection_ack` start the subscription;
on `data` look the id up in `subscriptions` and, when a `rendererUpdate`
payload is present, invoke the registered callback on it; `error`,
`complete` and unknown types are only logged.  Returns the transmitted
wire messages and the components handed to callbacks. -/
def GraphQLWebSocketClient.handleMessage (c : GraphQLWebSocketClient)
    (m : ServerMsg) : List WireMsg × List Component :=
  match m with
  | .connectionAck => (c.startSubscription, [])
  | .dataMsg id rendererUpdate =>
      match rendererUpdate with
      | some comp =>
          if c.subscriptions.contains id then ([], [comp]) else ([], [])
      | none => ([], [])
  | .errorMsg => ([], [])
  | .complete => ([], [])
  | .unknown => ([], [])

/-- `attemptReconnect()`: when fewer than `maxReconnectAttempts` attempts
have been used, increment the counter and schedule `connect()` after
`2000 * this.reconnectAttempts` ms (the value after the increment);
otherwise only log that the maximum was reached and schedule nothing.
Returns the new state and the scheduled delay, if any. -/
def GraphQLWebSocketClient.attemptReconnect (c : GraphQLWebSocketClient) :
    GraphQLWebSocketClient × Option Nat :=
  if c.reconnectAttempts < c.maxReconnectAttempts then
    ({ c with reconnectAttempts := c.reconnectAttempts + 1 },
     some (2000 * (c.reconnectAttempts + 1)))
  else
    (c, none)

/-- The `ws.onclose` handler: the socket is now CLOSED; set
`connected = false` and call `attemptReconnect()`. -/
def GraphQLWebSocketClient.onClose (c : GraphQLWebSocketClient) :
    GraphQLWebSocketClient × Option Nat :=
  GraphQLWebSocketClient.attemptReconnect
    { c with wsState := some ReadyState.closed, connected := false }

/-- `disconnect()`: `if (this.ws) this.ws.close()` — nothing else.  No
`stop` message is sent and no flag suppresses the `onclose` handler that
the close will fire.  Closing moves the socket to CLOSING. -/
def GraphQLWebSocketClient.disconnect (c : GraphQLWebSocketClient) :
    GraphQLWebSocketClient :=
  match c.wsState with
  | some _ => { c with wsState := some ReadyState.closing }
  | none => c

/-- The cleanup closure returned by `subscribe(callback)`: delete the
subscription from the map, then — only `if (this.connected)` — send the
`stop` message through `send`.  Returns the new state and the transmitted
messages. -/
def GraphQLWebSocketClient.unsubscribeCleanup
    (c : GraphQLWebSocketClient) : GraphQLWebSocketClient × List WireMsg :=
  let c2 := { c with
    subscriptions := c.subscriptions.filter fun s =>
      decide (s ≠ "renderer-subscription") }
  if c2.connected then
    (c2, c2.send (WireMsg.stop "renderer-subscription"))
  else
    (c2, [])

/-! ## Helper lemmas -/

/-- The subscriber at index `i` (or the placeholder when out of range). -/
def subAt (ps : PubSub) (i : Nat) : Subscriber :=
  ps.subscribers.getD i defaultSubscriber

/-- `publish` never adds or removes subscribers. -/
theorem publish_subscribers_length (ps : PubSub) (t : String)
    (c : Component) :
    (ps.publish t c).subscribers.length = ps.subscribers.length := by
  simp [PubSub.publish]

/-- What `publish` does to the subscriber at index `i`: append `c` to its
queue when its topic matches, leave it untouched otherwise. -/
theorem publish_subAt (ps : PubSub) (t : String) (c : Component) (i : Nat)
    (h : i < ps.subscribers.length) :
    subAt (ps.publish t c) i =
      (if (subAt ps i).topic = t
       then { subAt ps i with queue := (subAt ps i).queue ++ [c] }
       else subAt ps i) := by
  have h1 : ps.subscribers[i]? = some ps.subscribers[i] :=
    List.getElem?_eq_getElem h
  simp [subAt, PubSub.publish, List.getD_eq_getElem?_getD,
    List.getElem?_map, h1]

/-- `publish` never changes a subscriber's topic. -/
theorem publish_subAt_topic (ps : PubSub) (t : String) (c : Component)
    (i : Nat) :
    (subAt (ps.publish t c) i).topic = (subAt ps i).topic := by
  by_cases h : i < ps.subscribers.length
  · rw [publish_subAt ps t c i h]
    split <;> rfl
  · have h1 : ps.subscribers[i]? = none :=
      List.getElem?_eq_none (Nat.le_of_not_lt h)
    have h2 : (ps.publish t c).subscribers[i]? = none := by
      apply List.getElem?_eq_none
      rw [publish_subscribers_length]
      exact Nat.le_of_not_lt h
    simp [subAt, List.getD_eq_getElem?_getD, h1, h2]

/-- After any further sequence of publishes, a subscriber's queue is its
old queue followed by exactly the components published on its topic, in
publish order. -/
theorem publishAll_subAt_queue (pubs : List (String × Component)) :
    ∀ (ps : PubSub) (i : Nat), i < ps.subscribers.length →
      (subAt (ps.publishAll pubs) i).queue =
        (subAt ps i).queue ++
          (pubs.filter
            (fun p => decide (p.1 = (subAt ps i).topic))).map Prod.snd := by
  induction pubs with
  | nil => intro ps i _; simp [PubSub.publishAll]
  | cons p pubs ih =>
      intro ps i h
      have hlen : i < (ps.publish p.1 p.2).subscribers.length := by
        rw [publish_subscribers_length]; exact h
      have hstep : ps.publishAll (p :: pubs) =
          (ps.publish p.1 p.2).publishAll pubs := rfl
      rw [hstep, ih (ps.publish p.1 p.2) i hlen,
          publish_subAt_topic ps p.1 p.2 i, publish_subAt ps p.1 p.2 i h,
          List.filter_cons]
      simp only [decide_eq_true_eq]
      by_cases hq : (subAt ps i).topic = p.1
      · rw [if_pos hq, if_pos hq.symm]
        simp
      · rw [if_neg hq, if_neg (fun hh => hq hh.symm)]

/-- `jsMapContains` agrees with membership of the key list. -/
theorem jsMapContains_iff (m : List (String × Component)) (k : String) :
    jsMapContains m k = true ↔ k ∈ m.map Prod.fst := by
  simp [jsMapContains, List.any_eq_true]

/-- Replacing under an existing key leaves the key sequence unchanged. -/
theorem jsMapSet_keys_contains (m : List (String × Component)) (k : String)
    (v : Component) (hc : jsMapContains m k = true) :
    (jsMapSet m k v).map Prod.fst = m.map Prod.fst := by
  simp only [jsMapSet, hc, if_true, List.map_map]
  apply List.map_congr_left
  intro p _
  by_cases hpk : p.1 = k <;> simp [hpk]

/-- Setting a fresh key appends it at the end of the key sequence. -/
theorem jsMapSet_keys_new (m : List (String × Component)) (k : String)
    (v : Component) (hc : ¬jsMapContains m k = true) :
    (jsMapSet m k v).map Prod.fst = m.map Prod.fst ++ [k] := by
  simp [jsMapSet, hc]

/-- `set` either leaves the key sequence unchanged (key already present,
entry replaced in place) or appends the new key at the end. -/
theorem jsMapSet_keys (m : List (String × Component)) (k : String)
    (v : Component) :
    (jsMapSet m k v).map Prod.fst = m.map Prod.fst ∨
      (jsMapSet m k v).map Prod.fst = m.map Prod.fst ++ [k] := by
  by_cases hc : jsMapContains m k = true
  · exact Or.inl (jsMapSet_keys_contains m k v hc)
  · exact Or.inr (jsMapSet_keys_new m k v hc)

/-- `set` keeps the key sequence duplicate-free. -/
theorem jsMapSet_keys_nodup (m : List (String × Component)) (k : String)
    (v : Component) (h : (m.map Prod.fst).Nodup) :
    ((jsMapSet m k v).map Prod.fst).Nodup := by
  by_cases hc : jsMapContains m k = true
  · rw [jsMapSet_keys_contains m k v hc]; exact h
  · rw [jsMapSet_keys_new m k v hc, List.nodup_append]
    refine ⟨h, List.nodup_singleton k, ?_⟩
    intro a ha hb
    have hk : a = k := by simpa using hb
    subst hk
    exact hc ((jsMapContains_iff m a).mpr ha)

/-- `set` never shrinks the map. -/
theorem jsMapSet_length (m : List (String × Component)) (k : String)
    (v : Component) :
    m.length ≤ (jsMapSet m k v).length := by
  by_cases hc : jsMapContains m k = true <;> simp [jsMapSet, hc]

/-- Looking up the key just set yields the value just stored. -/
theorem jsMapGet_set_self (m : List (String × Component)) (k : String)
    (v : Component) :
    jsMapGet (jsMapSet m k v) k = some v := by
  by_cases hc : jsMapContains m k = true
  · rw [jsMapGet, jsMapSet, if_pos hc]
    induction m with
    | nil => simp [jsMapContains] at hc
    | cons p m ih =>
        by_cases hpk : p.1 = k
        · simp [hpk]
        · have hc2 : jsMapContains m k = true := by
            simpa [jsMapContains, hpk] using hc
          simpa [hpk, List.find?_cons] using ih hc2
  · rw [jsMapGet, jsMapSet, if_neg hc, List.find?_append]
    have hnone : m.find? (fun p => decide (p.1 = k)) = none := by
      rw [List.find?_eq_none]
      intro p hp hpk
      have hk : p.1 = k := of_decide_eq_true hpk
      exact hc ((jsMapContains_iff m k).mpr
        (hk ▸ List.mem_map_of_mem Prod.fst hp))
    simp [hnone]

/-! ## Concrete states used in counterexamples and witnesses -/

/-- A numbered dummy component. -/
def mkComponent (n : Nat) : Component :=
  { id := toString n, type := some "CARD", data := none, createdAt := "t" }

/-- A queue already filled to the bound of 256 events the spec names. -/
def fullQueue : List Component := (List.range 256).map mkComponent

/-- A registry with one COMPONENT_UPDATE subscriber whose queue is at the
spec's capacity bound of 256. -/
def overloadedRegistry : ComponentRegistry :=
  { components := [],
    pubsub :=
      { subscribers :=
          [{ sid := 0, topic := "COMPONENT_UPDATE", queue := fullQueue }],
        nextSid := 1 } }

/-- A registry with one COMPONENT_UPDATE subscriber with an empty queue. -/
def oneSubRegistry : ComponentRegistry :=
  { components := [],
    pubsub :=
      { subscribers :=
          [{ sid := 0, topic := "COMPONENT_UPDATE", queue := [] }],
        nextSid := 1 } }

/-- C1 counterexample: publishing to a subscriber whose queue already
holds 256 events does not discard the oldest queued event — the queue
grows to 257, its head is still the oldest event, and the new event is
appended at the back.  There is no dropped-event counter anywhere in the
state to increment. -/
theorem C1_counterexample :
    (subAt ((overloadedRegistry.renderComponent (some "CARD") none
        "new-uuid" "t-new").1.pubsub) 0).queue.length = 257 ∧
    (subAt ((overloadedRegistry.renderComponent (some "CARD") none
        "new-uuid" "t-new").1.pubsub) 0).queue.headD defaultComponent =
      mkComponent 0 ∧
    (subAt ((overloadedRegistry.renderComponent (some "CARD") none
        "new-uuid" "t-new").1.pubsub) 0).queue.getLast? =
      some { id := "new-uuid", type := some "CARD", data := none,
             createdAt := "t-new" } := by
  have hq : (subAt ((overloadedRegistry.renderComponent (some "CARD") none
      "new-uuid" "t-new").1.pubsub) 0).queue =
      fullQueue ++ [{ id := "new-uuid", type := some "CARD", data := none,
                      createdAt := "t-new" }] := rfl
  refine ⟨?_, ?_, ?_⟩
  · rw [hq]; simp [fullQueue]
  · rw [hq]; rfl
  · rw [hq]; simp

/-- C1 (amended): `publish` (as invoked by `renderComponent`) appends the
freshly minted event to the queue of every COMPONENT_UPDATE subscriber
unconditionally: no queued event is ever discarded, the queue is
unbounded, no dropped-event counter exists, the subscriber set is
untouched, and no error is raised to the publisher (the operation is
total). -/
theorem C1_publish_appends_unconditionally (r : ComponentRegistry)
    (ty da : Option String) (u n : String) (i : Nat)
    (h : i < r.pubsub.subscribers.length) :
    (subAt (r.renderComponent ty da u n).1.pubsub i).queue =
      (subAt r.pubsub i).queue ++
        (if (subAt r.pubsub i).topic = "COMPONENT_UPDATE"
         then [{ id := u, type := ty, data := da, createdAt := n }]
         else []) ∧
    (r.renderComponent ty da u n).1.pubsub.subscribers.length =
      r.pubsub.subscribers.length := by
  have hps : (r.renderComponent ty da u n).1.pubsub =
      r.pubsub.publish "COMPONENT_UPDATE"
        { id := u, type := ty, data := da, createdAt := n } := rfl
  rw [hps]
  refine ⟨?_, publish_subscribers_length _ _ _⟩
  rw [publish_subAt _ _ _ _ h]
  by_cases ht : (subAt r.pubsub i).topic = "COMPONENT_UPDATE" <;> simp [ht]

/-- C1 witness: the amended statement at a concrete one-subscriber
registry. -/
theorem C1_publish_appends_witness :
    (subAt (oneSubRegistry.renderComponent (some "CARD") none
        "u1" "t1").1.pubsub 0).queue =
      [{ id := "u1", type := some "CARD", data := none,
         createdAt := "t1" }] ∧
    (oneSubRegistry.renderComponent (some "CARD") none
        "u1" "t1").1.pubsub.subscribers.length = 1 := by
  obtain ⟨h1, h2⟩ := C1_publish_appends_unconditionally oneSubRegistry
    (some "CARD") none "u1" "t1" 0 (by decide)
  constructor
  · rw [h1]; rfl
  · rw [h2]; rfl

/-- A daemon with one RENDERER_UPDATE subscriber with an empty queue. -/
def oneSubDaemon : ComponentDaemon :=
  { components := [],
    pubsub :=
      { subscribers :=
          [{ sid := 0, topic := "RENDERER_UPDATE", queue := [] }],
        nextSid := 1 } }

/-- C2: every component the Daemon's relay client receives from the
Registry (a data message carrying a componentUpdate and no errors) is
republished in the same handler step, unchanged in every field, into the
Daemon's own broker under its single outbound topic RENDERER_UPDATE: each
RENDERER_UPDATE subscriber's queue gets exactly the received component
appended, the component is stored unchanged, and nothing is sent back to
the Registry. -/
theorem C2_daemon_pass_through (d : ComponentDaemon) (c : Component)
    (i : Nat) (h : i < d.pubsub.subscribers.length) :
    (subAt (d.onRegistryMessage
        (RegistryMsg.dataMsg false (some c))).1.pubsub i).queue =
      (subAt d.pubsub i).queue ++
        (if (subAt d.pubsub i).topic = "RENDERER_UPDATE"
         then [c] else []) ∧
    jsMapGet (d.onRegistryMessage
        (RegistryMsg.dataMsg false (some c))).1.components c.id = some c ∧
    (d.onRegistryMessage (RegistryMsg.dataMsg false (some c))).2 = [] := by
  refine ⟨?_, ?_, rfl⟩
  · have hps : (d.onRegistryMessage
        (RegistryMsg.dataMsg false (some c))).1.pubsub =
        d.pubsub.publish "RENDERER_UPDATE" c := rfl
    rw [hps, publish_subAt _ _ _ _ h]
    by_cases ht : (subAt d.pubsub i).topic = "RENDERER_UPDATE" <;>
      simp [ht]
  · exact jsMapGet_set_self d.components c.id c

/-- C2 witness: the pass-through at a concrete one-subscriber daemon. -/
theorem C2_daemon_pass_through_witness :
    (subAt ((oneSubDaemon.onRegistryMessage
        (RegistryMsg.dataMsg false (some (mkComponent 7)))).1.pubsub)
        0).queue = [mkComponent 7] ∧
    jsMapGet (oneSubDaemon.onRegistryMessage
        (RegistryMsg.dataMsg false (some (mkComponent 7)))).1.components
        (mkComponent 7).id = some (mkComponent 7) := by
  obtain ⟨h1, h2, -⟩ :=
    C2_daemon_pass_through oneSubDaemon (mkComponent 7) 0 (by decide)
  exact ⟨by rw [h1]; rfl, h2⟩

/-- C3 counterexample: the Daemon's relay client never stops reconnecting
and uses no increasing backoff: six consecutive transport closes schedule
six attempts — so a 6th automatic attempt is made — each after the same
fixed 2000 ms delay (in particular the 2nd attempt is delayed 2000 ms,
not 2 * 2000 ms, and after 5 failures no terminal give-up state is
reached). -/
theorem C3_counterexample :
    ComponentDaemon.scheduleAfterCloses emptyDaemon 6 =
      [some 2000, some 2000, some 2000, some 2000, some 2000,
       some 2000] := rfl

/-- C3 (amended): the two clients diverge.  The Renderer's client
schedules its n-th reconnection attempt after 2000 * n ms and stops after
5 attempts (it never schedules a 6th until a successful open resets the
counter, and the give-up is only logged, not reported).  The Daemon's
client schedules a reconnection after a fixed 2000 ms delay on every
close, with no attempt counter and no cap — it never gives up. -/
theorem C3_amended_backoff (c : GraphQLWebSocketClient)
    (d : ComponentDaemon) (n : Nat) (hmax : c.maxReconnectAttempts = 5) :
    (c.reconnectAttempts < 5 →
      (c.attemptReconnect).2 = some (2000 * (c.reconnectAttempts + 1)) ∧
      (c.attemptReconnect).1.reconnectAttempts =
        c.reconnectAttempts + 1) ∧
    (5 ≤ c.reconnectAttempts → (c.attemptReconnect).2 = none) ∧
    d.scheduleAfterCloses n = List.replicate n (some 2000) := by
  refine ⟨?_, ?_, ?_⟩
  · intro hlt
    unfold GraphQLWebSocketClient.attemptReconnect
    rw [hmax, if_pos hlt]
    exact ⟨rfl, rfl⟩
  · intro hge
    unfold GraphQLWebSocketClient.attemptReconnect
    rw [hmax, if_neg (Nat.not_lt.mpr hge)]
  · induction n with
    | zero => rfl
    | succ k ih =>
        simpa [ComponentDaemon.scheduleAfterCloses,
          ComponentDaemon.onRegistryClose, List.replicate_succ] using ih

/-- C3 witness: the amended statement at concrete clients — a fresh
Renderer client's first reconnection is scheduled after 2000 ms, and two
daemon-side closes schedule two fixed 2000 ms attempts. -/
theorem C3_amended_backoff_witness :
    (newGraphQLWebSocketClient.attemptReconnect).2 = some 2000 ∧
    ComponentDaemon.scheduleAfterCloses emptyDaemon 2 =
      [some 2000, some 2000] := by
  obtain ⟨h1, -, h3⟩ :=
    C3_amended_backoff newGraphQLWebSocketClient emptyDaemon 2 rfl
  refine ⟨?_, by rw [h3]; rfl⟩
  have h4 := h1 (by decide)
  simpa using h4.1

/-- A connected, subscribed Renderer client with no attempts used. -/
def subscribedClient : GraphQLWebSocketClient :=
  { wsState := some ReadyState.opened, connected := true,
    reconnectAttempts := 0, maxReconnectAttempts := 5,
    subscriptions := ["renderer-subscription"] }

/-- C4 counterexample: after an explicit `disconnect()` of a connected,
subscribed client, the close handler fired by the closing transport still
schedules an automatic reconnection attempt, after 2000 ms — reconnection
is not suppressed. -/
theorem C4_counterexample :
    ((subscribedClient.disconnect).onClose).2 = some 2000 := rfl

/-- C4 (amended): `disconnect()` only closes the transport — it sends no
stop message and sets no suppression flag — so the ensuing close handler
still runs the reconnection logic: with k < 5 attempts already used, an
automatic attempt is scheduled after 2000 * (k + 1) ms, and only with the
5-attempt budget already exhausted is nothing scheduled.  (A stop message
is sent only by the display system's separate unsubscribe cleanup, and
only while connected.) -/
theorem C4_amended_disconnect_reconnects (c : GraphQLWebSocketClient)
    (hmax : c.maxReconnectAttempts = 5) :
    (c.reconnectAttempts < 5 →
      ((c.disconnect).onClose).2 =
        some (2000 * (c.reconnectAttempts + 1))) ∧
    (5 ≤ c.reconnectAttempts → ((c.disconnect).onClose).2 = none) := by
  have hd : (c.disconnect).reconnectAttempts = c.reconnectAttempts := by
    unfold GraphQLWebSocketClient.disconnect
    cases c.wsState <;> rfl
  have hd2 : (c.disconnect).maxReconnectAttempts =
      c.maxReconnectAttempts := by
    unfold GraphQLWebSocketClient.disconnect
    cases c.wsState <;> rfl
  constructor
  · intro hlt
    unfold GraphQLWebSocketClient.onClose
      GraphQLWebSocketClient.attemptReconnect
    simp only [hd, hd2, hmax]
    rw [if_pos hlt]
  · intro hge
    unfold GraphQLWebSocketClient.onClose
      GraphQLWebSocketClient.attemptReconnect
    simp only [hd, hd2, hmax]
    rw [if_neg (Nat.not_lt.mpr hge)]

/-- C4 witness: the amended statement at the concrete subscribed client. -/
theorem C4_amended_disconnect_reconnects_witness :
    ((subscribedClient.disconnect).onClose).2 = some 2000 ∧
    (({ subscribedClient with reconnectAttempts := 5
       }.disconnect).onClose).2 = none := by
  obtain ⟨h1, -⟩ :=
    C4_amended_disconnect_reconnects subscribedClient rfl
  obtain ⟨-, h2⟩ := C4_amended_disconnect_reconnects
    { subscribedClient with reconnectAttempts := 5 } rfl
  exact ⟨by simpa using h1 (by decide), h2 (by decide)⟩

/-- C5: in both relay clients the init message is sent exactly by the
open handler — i.e. only once the transport is established — and the
start-subscription message is sent by the message handler exactly upon
(and never before) the server's connection_ack: no other incoming message
produces it, and the ack produces it in the same handler step. -/
theorem C5_handshake_order (d : ComponentDaemon) (m : RegistryMsg)
    (c : GraphQLWebSocketClient) (m2 : ServerMsg) :
    ComponentDaemon.onRegistryOpen = [WireMsg.connectionInit] ∧
    (WireMsg.connectionInit ∈ (d.onRegistryMessage m).2 → False) ∧
    (WireMsg.start "registry-sub" daemonSubscriptionQuery ∈
        (d.onRegistryMessage m).2 ↔ m = RegistryMsg.connectionAck) ∧
    (c.onOpen).2 = [WireMsg.connectionInit] ∧
    (WireMsg.connectionInit ∈ (c.handleMessage m2).1 → False) ∧
    (WireMsg.start "renderer-subscription" rendererSubscriptionQuery ∈
        (c.handleMessage m2).1 → m2 = ServerMsg.connectionAck) ∧
    (m2 = ServerMsg.connectionAck →
      c.wsState = some ReadyState.opened →
      (c.handleMessage m2).1 =
        [WireMsg.start "renderer-subscription"
          rendererSubscriptionQuery]) := by
  refine ⟨rfl, ?_, ⟨?_, ?_⟩, rfl, ?_, ?_, ?_⟩
  · intro hmem
    cases m with
    | connectionAck => simp [ComponentDaemon.onRegistryMessage] at hmem
    | dataMsg he up =>
        cases he <;> cases up <;>
          simp [ComponentDaemon.onRegistryMessage] at hmem
    | errorMsg => simp [ComponentDaemon.onRegistryMessage] at hmem
    | other => simp [ComponentDaemon.onRegistryMessage] at hmem
  · intro hmem
    cases m with
    | connectionAck => rfl
    | dataMsg he up =>
        cases he <;> cases up <;>
          simp [ComponentDaemon.onRegistryMessage] at hmem
    | errorMsg => simp [ComponentDaemon.onRegistryMessage] at hmem
    | other => simp [ComponentDaemon.onRegistryMessage] at hmem
  · rintro rfl
    simp [ComponentDaemon.onRegistryMessage]
  · intro hmem
    cases m2 with
    | connectionAck =>
        by_cases hw : c.wsState = some ReadyState.opened <;>
          simp [GraphQLWebSocketClient.handleMessage,
            GraphQLWebSocketClient.startSubscription,
            GraphQLWebSocketClient.send, hw] at hmem
    | dataMsg id up =>
        cases up with
        | none => simp [GraphQLWebSocketClient.handleMessage] at hmem
        | some comp =>
            by_cases hc : id ∈ c.subscriptions <;>
              simp [GraphQLWebSocketClient.handleMessage, hc] at hmem
    | errorMsg => simp [GraphQLWebSocketClient.handleMessage] at hmem
    | complete => simp [GraphQLWebSocketClient.handleMessage] at hmem
    | unknown => simp [GraphQLWebSocketClient.handleMessage] at hmem
  · intro hmem
    cases m2 with
    | connectionAck => rfl
    | dataMsg id up =>
        cases up with
        | none => simp [GraphQLWebSocketClient.handleMessage] at hmem
        | some comp =>
            by_cases hc : id ∈ c.subscriptions <;>
              simp [GraphQLWebSocketClient.handleMessage, hc] at hmem
    | errorMsg => simp [GraphQLWebSocketClient.handleMessage] at hmem
    | complete => simp [GraphQLWebSocketClient.handleMessage] at hmem
    | unknown => simp [GraphQLWebSocketClient.handleMessage] at hmem
  · rintro rfl hw
    simp [GraphQLWebSocketClient.handleMessage,
      GraphQLWebSocketClient.startSubscription,
      GraphQLWebSocketClient.send, hw]

/-- C5 witness: the handshake steps at concrete clients — on ack the
Daemon sends exactly its start message and the connected Renderer client
sends exactly its start message. -/
theorem C5_handshake_order_witness :
    (emptyDaemon.onRegistryMessage RegistryMsg.connectionAck).2 =
      [WireMsg.start "registry-sub" daemonSubscriptionQuery] ∧
    (subscribedClient.handleMessage ServerMsg.connectionAck).1 =
      [WireMsg.start "renderer-subscription"
        rendererSubscriptionQuery] := by
  have h := C5_handshake_order emptyDaemon RegistryMsg.connectionAck
    subscribedClient ServerMsg.connectionAck
  exact ⟨rfl, h.2.2.2.2.2.2 rfl rfl⟩

/-- The Registry's GraphQL `Subscription.componentUpdate.subscribe`
resolver: `registry.pubsub.asyncIterableIterator("COMPONENT_UPDATE")` —
register a fresh subscriber on the single topic.  Returns the new
registry state and the new subscriber id. -/
def componentUpdateSubscribe (r : ComponentRegistry) :
    ComponentRegistry × Nat :=
  let p := r.pubsub.asyncIterableIterator "COMPONENT_UPDATE"
  ({ r with pubsub := p.1 }, p.2)

/-- C6: a fresh subscription starts with an empty queue and receives no
replay of history: after any further sequence of publishes, the new
subscriber's queue holds exactly the components published on
COMPONENT_UPDATE after it joined, in publish order — never anything
published before it joined. -/
theorem C6_subscribe_no_replay (r : ComponentRegistry)
    (pubs : List (String × Component)) :
    (subAt (componentUpdateSubscribe r).1.pubsub
        r.pubsub.subscribers.length).queue = [] ∧
    (subAt (((componentUpdateSubscribe r).1.pubsub).publishAll pubs)
        r.pubsub.subscribers.length).queue =
      (pubs.filter
        (fun p => decide (p.1 = "COMPONENT_UPDATE"))).map Prod.snd := by
  have hnew : subAt (componentUpdateSubscribe r).1.pubsub
      r.pubsub.subscribers.length =
      { sid := r.pubsub.nextSid, topic := "COMPONENT_UPDATE",
        queue := [] } := by
    have h1 : (componentUpdateSubscribe r).1.pubsub.subscribers =
        r.pubsub.subscribers ++
          [{ sid := r.pubsub.nextSid, topic := "COMPONENT_UPDATE",
             queue := [] }] := rfl
    rw [subAt, List.getD_eq_getElem?_getD, h1,
      List.getElem?_concat_length]
    rfl
  have hlen : r.pubsub.subscribers.length <
      (componentUpdateSubscribe r).1.pubsub.subscribers.length := by
    have h1 : (componentUpdateSubscribe r).1.pubsub.subscribers.length =
        r.pubsub.subscribers.length + 1 := by
      simp [componentUpdateSubscribe, PubSub.asyncIterableIterator]
    rw [h1]
    exact Nat.lt_succ_self _
  refine ⟨by rw [hnew], ?_⟩
  rw [publishAll_subAt_queue pubs _ _ hlen, hnew]
  rfl

/-- The shape of a canonical UUID-v4 string (following the spec's words:
a random UUID-v4 string): 36 characters, hyphens at positions 8, 13, 18
and 23, and the version nibble at position 14 equal to the character 4. -/
def uuidV4Format (s : String) : Bool :=
  decide (s.length = 36) &&
  decide (s.toList.getD 8 ' ' = '-') &&
  decide (s.toList.getD 13 ' ' = '-') &&
  decide (s.toList.getD 18 ' ' = '-') &&
  decide (s.toList.getD 23 ' ' = '-') &&
  decide (s.toList.getD 14 ' ' = '4')

/-- C7 counterexample: the debug POST /test-subscription handler mints
and publishes an event whose id is "test-" + Date.now(): it is not a
UUID-v4, and two publishes within the same millisecond put two events
with the same id into a subscriber's queue — ids are not globally
unique. -/
theorem C7_counterexample :
    uuidV4Format (testSubscriptionComponent 0 "t0").id = false ∧
    ((subAt (postTestSubscription
        (postTestSubscription oneSubRegistry 0 "t0") 0 "t0").pubsub
        0).queue.map Component.id) = ["test-0", "test-0"] := by
  exact ⟨rfl, rfl⟩

/-- C7 (amended): components minted by `renderComponent` take their id
from the uuid generator and their createdAt from the clock, both at
publish time, and the very component minted — unchanged in every field —
is what the Registry stores under that id and what the Daemon, on
receipt, stores and republishes; nothing ever rewrites a stored
component's fields.  The debug /test-subscription endpoint, however,
mints ids of the shape "test-" + Date.now(), which are not UUID-v4 and
repeat within a millisecond. -/
theorem C7_amended_mint_immutable (r : ComponentRegistry)
    (d : ComponentDaemon) (ty da : Option String) (u n : String) :
    (r.renderComponent ty da u n).2.id = u ∧
    (r.renderComponent ty da u n).2.createdAt = n ∧
    (r.renderComponent ty da u n).2.type = ty ∧
    (r.renderComponent ty da u n).2.data = da ∧
    jsMapGet (r.renderComponent ty da u n).1.components u =
      some (r.renderComponent ty da u n).2 ∧
    jsMapGet (d.handleComponentFromRegistry
        (r.renderComponent ty da u n).2).components u =
      some (r.renderComponent ty da u n).2 := by
  refine ⟨rfl, rfl, rfl, rfl, ?_, ?_⟩
  · exact jsMapGet_set_self r.components u _
  · exact jsMapGet_set_self d.components u _

/-- C8 counterexample: a POST /render request with no kind at all is not
rejected — the handler mints and publishes a component with an absent
type and answers success: true. -/
theorem C8_counterexample :
    (postRender emptyRegistry none none "u0" "t0").2.success = true ∧
    (postRender emptyRegistry none none "u0" "t0").2.component.type =
      none :=
  ⟨rfl, rfl⟩

/-- C8 (amended): POST /render performs no validation at all — every
request, with or without kind, is accepted; the response always reports
success of the act of publishing itself and carries the freshly minted
component, and it is independent of downstream delivery: the broker's
subscriber state plays no part in the response. -/
theorem C8_amended_no_validation (comps : List (String × Component))
    (ps ps2 : PubSub) (ty da : Option String) (u n : String) :
    (postRender { components := comps, pubsub := ps }
        ty da u n).2.success = true ∧
    (postRender { components := comps, pubsub := ps }
        ty da u n).2.component =
      { id := u, type := ty, data := da, createdAt := n } ∧
    (postRender { components := comps, pubsub := ps } ty da u n).2 =
      (postRender { components := comps, pubsub := ps2 } ty da u n).2 :=
  ⟨rfl, rfl, rfl⟩

/-- Starting from duplicate-free keys, feeding any received components
through the daemon keeps the history's keys duplicate-free. -/
theorem handleAll_keys_nodup (comps : List Component) :
    ∀ d : ComponentDaemon, (d.components.map Prod.fst).Nodup →
      (((d.handleAll comps).components.map Prod.fst).Nodup) := by
  induction comps with
  | nil => intro d h; exact h
  | cons c cs ih =>
      intro d h
      exact ih _ (jsMapSet_keys_nodup d.components c.id c h)

/-- C9: both component histories are maps keyed by event id: after any
sequence of stores the daemon's history has at most one entry per id
(duplicate-free keys); a store leaves the key sequence unchanged
(replacement in place, at the original position) or appends the new id at
the end (insertion order); and a store never shrinks the history — in
both the Daemon and the Registry. -/
theorem C9_history_map_invariants (comps : List Component)
    (d : ComponentDaemon) (c : Component) (r : ComponentRegistry)
    (ty da : Option String) (u n : String) :
    (((ComponentDaemon.handleAll emptyDaemon comps).components.map
        Prod.fst).Nodup) ∧
    ((d.handleComponentFromRegistry c).components.map Prod.fst =
        d.components.map Prod.fst ∨
      (d.handleComponentFromRegistry c).components.map Prod.fst =
        d.components.map Prod.fst ++ [c.id]) ∧
    (d.components.length ≤
      (d.handleComponentFromRegistry c).components.length) ∧
    ((r.renderComponent ty da u n).1.components.map Prod.fst =
        r.components.map Prod.fst ∨
      (r.renderComponent ty da u n).1.components.map Prod.fst =
        r.components.map Prod.fst ++ [u]) ∧
    (r.components.length ≤
      (r.renderComponent ty da u n).1.components.length) := by
  refine ⟨?_, ?_, ?_, ?_, ?_⟩
  · exact handleAll_keys_nodup comps emptyDaemon List.nodup_nil
  · exact jsMapSet_keys d.components c.id c
  · exact jsMapSet_length d.components c.id c
  · exact jsMapSet_keys r.components u _
  · exact jsMapSet_length r.components u _

/-- A closed, subscribed, disconnected Renderer client. -/
def disconnectedClient : GraphQLWebSocketClient :=
  { wsState := some ReadyState.closed, connected := false,
    reconnectAttempts := 2, maxReconnectAttempts := 5,
    subscriptions := ["renderer-subscription"] }

/-- C10: `send` puts nothing on the wire whenever the socket is missing
or not OPEN — it returns without error and without queueing (it neither
fails nor stores the message anywhere) — and the unsubscribe cleanup run
while the client is disconnected transmits no stop message at all. -/
theorem C10_send_silently_drops (c : GraphQLWebSocketClient)
    (m : WireMsg) :
    (c.wsState ≠ some ReadyState.opened → c.send m = []) ∧
    (c.connected = false → (c.unsubscribeCleanup).2 = []) := by
  constructor
  · intro h
    simp [GraphQLWebSocketClient.send, h]
  · intro h
    simp [GraphQLWebSocketClient.unsubscribeCleanup, h]

/-- C10 witness: at a concrete disconnected client, `send` transmits
nothing and the unsubscribe cleanup transmits nothing. -/
theorem C10_send_silently_drops_witness :
    disconnectedClient.send WireMsg.connectionInit = [] ∧
    (disconnectedClient.unsubscribeCleanup).2 = [] := by
  have h := C10_send_silently_drops disconnectedClient
    WireMsg.connectionInit
  exact ⟨h.1 (by decide), h.2 rfl⟩
